import Mathlib

/-!
Verification of the MedXrayChat response-orchestration core.

Shallow embedding of the components under `apps/api`:
* `core/circuit_breaker.py` — the `CircuitBreaker` state machine,
* `core/streaming.py`       — the `StreamingSession.iterate` consumer loop,
* `services/tools.py`       — the `ToolCallParser` fallback pipeline,
* `services/ai_service.py`  — `weighted_boxes_fusion` and the tool-calling
  orchestrator `chat_with_tools` / `chat_with_tools_stream`.

Python strings are modelled as `List Char`, Python floats / `time.time()`
timestamps as `ℚ`, and the wall clock is passed explicitly to every
operation that reads it.  Fallible Python code is modelled with `Option`
and `Except`.
-/

namespace MedXray

/-! ## Circuit breaker (`core/circuit_breaker.py`) -/

/-- `CircuitState` enum from `circuit_breaker.py`. -/
inductive CircuitState
  | CLOSED
  | OPEN
  | HALF_OPEN
deriving DecidableEq, Repr

/-- `CircuitBreakerConfig` dataclass. -/
structure CircuitBreakerConfig where
  failure_threshold : Nat
  recovery_timeout : ℚ
  success_threshold : Nat
deriving DecidableEq, Repr

/-- Mutable fields of a `CircuitBreaker` object (`__init__`).  The `name`
and the lock are irrelevant to the state machine and omitted; all
mutations below are already serialized. -/
structure CircuitBreaker where
  config : CircuitBreakerConfig
  state_ : CircuitState
  failure_count : Nat
  success_count : Nat
  last_failure_time : Option ℚ
deriving DecidableEq, Repr

/-- `CircuitBreaker.__init__` with a fresh state. -/
def CircuitBreaker.mk0 (config : CircuitBreakerConfig) : CircuitBreaker :=
  { config := config
    state_ := .CLOSED
    failure_count := 0
    success_count := 0
    last_failure_time := none }

/-- The `state` property: reading the state while OPEN checks the elapsed
time since the last failure and, once `recovery_timeout` has passed,
transitions to HALF_OPEN (resetting the success counter) as a side effect
of the read.  `now` models `time.time()`. -/
def CircuitBreaker.stateRead (b : CircuitBreaker) (now : ℚ) :
    CircuitState × CircuitBreaker :=
  match b.state_ with
  | .OPEN =>
      match b.last_failure_time with
      | some t =>
          if now - t ≥ b.config.recovery_timeout then
            (.HALF_OPEN, { b with state_ := .HALF_OPEN, success_count := 0 })
          else
            (.OPEN, b)
      | none => (.OPEN, b)
  | s => (s, b)

/-- `CircuitBreaker._on_success`. -/
def CircuitBreaker.onSuccess (b : CircuitBreaker) : CircuitBreaker :=
  match b.state_ with
  | .HALF_OPEN =>
      let sc := b.success_count + 1
      if sc ≥ b.config.success_threshold then
        { b with state_ := .CLOSED, success_count := sc, failure_count := 0 }
      else
        { b with success_count := sc }
  | .CLOSED => { b with failure_count := 0 }
  | .OPEN => b

/-- `CircuitBreaker._on_failure`: increments the failure counter, records
the failure time, and opens the circuit from HALF_OPEN (any failure) or
once the counter reaches `failure_threshold`. -/
def CircuitBreaker.onFailure (b : CircuitBreaker) (now : ℚ) : CircuitBreaker :=
  let b' := { b with failure_count := b.failure_count + 1,
                     last_failure_time := some now }
  match b'.state_ with
  | .HALF_OPEN => { b' with state_ := .OPEN }
  | _ =>
      if b'.failure_count ≥ b'.config.failure_threshold then
        { b' with state_ := .OPEN }
      else
        b'

/-- Outcome of one `CircuitBreaker.call`.  `rejectedOpen` is the branch
that raises `CircuitBreakerOpenError` before the wrapped function is
invoked; the other two constructors correspond to the wrapped function
having been invoked and returning / raising. -/
inductive CallOutcome
  | rejectedOpen
  | succeeded
  | failedRaised
deriving DecidableEq, Repr

/-- `CircuitBreaker.call`: reads the state (possibly transitioning
OPEN → HALF_OPEN), rejects if OPEN, otherwise invokes the wrapped
function — modelled by the boolean `funcFails` telling whether it
raises — and records the outcome. -/
def CircuitBreaker.call (b : CircuitBreaker) (now : ℚ) (funcFails : Bool) :
    CallOutcome × CircuitBreaker :=
  let sb := b.stateRead now
  if sb.1 = .OPEN then
    (.rejectedOpen, sb.2)
  else if funcFails then
    (.failedRaised, sb.2.onFailure now)
  else
    (.succeeded, sb.2.onSuccess)

/-- `CircuitBreaker.reset`. -/
def CircuitBreaker.reset (b : CircuitBreaker) : CircuitBreaker :=
  { b with state_ := .CLOSED, failure_count := 0, success_count := 0,
           last_failure_time := none }

/-- The module-level `yolo_circuit` breaker. -/
def yolo_circuit : CircuitBreaker :=
  CircuitBreaker.mk0 ⟨3, 60, 2⟩

/-- The module-level `qwen_circuit` breaker. -/
def qwen_circuit : CircuitBreaker :=
  CircuitBreaker.mk0 ⟨3, 120, 2⟩

/-- `n` consecutive calls whose wrapped function succeeds, all at time
`now`. -/
def CircuitBreaker.succN (b : CircuitBreaker) (now : ℚ) : Nat → CircuitBreaker
  | 0 => b
  | n + 1 => ((b.call now false).2).succN now n

/-- Consecutive calls whose wrapped function raises, one per timestamp. -/
def CircuitBreaker.failCalls (b : CircuitBreaker) : List ℚ → CircuitBreaker
  | [] => b
  | t :: ts => ((b.call t true).2).failCalls ts

/-! ## Detection data model (`schemas/schemas.py`, `services/yolo_service.py`) -/

/-- Python strings are modelled as lists of characters. -/
abbrev PyStr := List Char

/-- `BoundingBox` pydantic schema (floats modelled as `ℚ`). -/
structure BoundingBox where
  x1 : ℚ
  y1 : ℚ
  x2 : ℚ
  y2 : ℚ
deriving DecidableEq, Repr

/-- `Detection` pydantic schema. -/
structure Detection where
  class_id : ℤ
  class_name : PyStr
  confidence : ℚ
  bbox : BoundingBox
  source : PyStr
deriving DecidableEq, Repr

/-- `VINDR_CLASSES` from `yolo_service.py` (22 class names). -/
def VINDR_CLASSES : List PyStr :=
  ["Aortic enlargement".data, "Atelectasis".data, "Calcification".data,
   "Cardiomegaly".data, "Clavicle fracture".data, "Consolidation".data,
   "Edema".data, "Emphysema".data, "Enlarged PA".data, "ILD".data,
   "Infiltration".data, "Lung Opacity".data, "Lung cavity".data,
   "Lung cyst".data, "Mediastinal shift".data, "Nodule/Mass".data,
   "Pleural effusion".data, "Pleural thickening".data, "Pneumothorax".data,
   "Pulmonary fibrosis".data, "Rib fracture".data, "Other lesion".data]

/-- Python list indexing `l[i]` with negative-index wraparound;
`none` models an `IndexError`. -/
def pyListGet (l : List PyStr) (i : ℤ) : Option PyStr :=
  if 0 ≤ i then l.get? i.toNat
  else if (-i).toNat ≤ l.length then l.get? (l.length - (-i).toNat)
  else none

/-- `VINDR_CLASSES[label_int] if label_int < len(VINDR_CLASSES) else
f"class_{label_int}"` (lines 95–96 of `ai_service.py`). -/
def classNameFor (label : ℤ) : Option PyStr :=
  if label < (VINDR_CLASSES.length : ℤ) then pyListGet VINDR_CLASSES label
  else some ("class_" ++ toString label).data

/-! ## Weighted box fusion (`services/ai_service.py`, lines 17–111) -/

/-- One box handed to the fusion backend: normalized coordinates,
score, integer label. -/
structure WEntry where
  box : BoundingBox
  score : ℚ
  label : ℤ
deriving DecidableEq, Repr

/-- Area of a box (clamped at zero for degenerate boxes). -/
def boxArea (a : BoundingBox) : ℚ :=
  max 0 (a.x2 - a.x1) * max 0 (a.y2 - a.y1)

/-- Intersection area of two boxes. -/
def interArea (a b : BoundingBox) : ℚ :=
  max 0 (min a.x2 b.x2 - max a.x1 b.x1) * max 0 (min a.y2 b.y2 - max a.y1 b.y1)

/-- `IoU(a, b) ≥ thr`, stated multiplicatively to avoid division by a
zero union area. -/
def iouGe (a b : BoundingBox) (thr : ℚ) : Bool :=
  decide (thr * (boxArea a + boxArea b - interArea a b) ≤ interArea a b)

/-- Score-weighted average of a cluster's coordinates (the cluster's
current fused box). -/
def clusterBox (c : List WEntry) : BoundingBox :=
  let w := c.foldl (fun s e => s + e.score) 0
  { x1 := (c.foldl (fun s e => s + e.score * e.box.x1) 0) / w
    y1 := (c.foldl (fun s e => s + e.score * e.box.y1) 0) / w
    x2 := (c.foldl (fun s e => s + e.score * e.box.x2) 0) / w
    y2 := (c.foldl (fun s e => s + e.score * e.box.y2) 0) / w }

/-- Insert one entry into the first cluster of the same label whose
fused box overlaps it with IoU ≥ `thr`, or start a new cluster. -/
def addToClusters (thr : ℚ) (e : WEntry) :
    List (List WEntry) → List (List WEntry)
  | [] => [[e]]
  | c :: rest =>
      if (c.head?.map (·.label) = some e.label) ∧ iouGe (clusterBox c) e.box thr then
        (c ++ [e]) :: rest
      else
        c :: addToClusters thr e rest

/-- Fuse one cluster: score-weighted average box, average score decayed
by `min(cluster size, number of sets) / number of sets`. -/
def fuseCluster (numSets : Nat) (c : List WEntry) : WEntry :=
  let n : ℚ := c.length
  let avg := (c.foldl (fun s e => s + e.score) 0) / n
  { box := clusterBox c
    score := avg * (min (n : ℚ) (numSets : ℚ)) / (numSets : ℚ)
    label := (c.head?.map (·.label)).getD 0 }

/-- Modelled from the spec: the fusion backend
`ensemble_boxes.weighted_boxes_fusion` is a third-party dependency whose
source is not part of this repository.  Following §4.1 of the spec:
boxes scoring below `skip_thr` are dropped, the rest are grouped by
IoU ≥ `iou_thr` within the same label, each group's output box is the
score-weighted average of its members' coordinates, and the output
score is the average of members' scores, decayed when fewer boxes
contributed than detection sets.  The number of detection sets is the
length of the outer list (empty sets included, as the caller appends
empty arrays for them). -/
def wbf (sets : List (List WEntry)) (iou_thr skip_thr : ℚ) : List WEntry :=
  let numSets := sets.length
  let entries := (sets.flatten).filter (fun e => decide (skip_thr ≤ e.score))
  let clusters := entries.foldl (fun cs e => addToClusters iou_thr e cs) []
  clusters.map (fuseCluster numSets)

/-- Fallback normalization divisor `max_x` (lines 51–55 of
`ai_service.py`): starts at 1 and is raised to every box's `x2`. -/
def fallbackMaxX (detections_list : List (List Detection)) : ℚ :=
  detections_list.foldl
    (fun m dets => dets.foldl (fun m d => max m d.bbox.x2) m) 1

/-- Fallback normalization divisor `max_y`. -/
def fallbackMaxY (detections_list : List (List Detection)) : ℚ :=
  detections_list.foldl
    (fun m dets => dets.foldl (fun m d => max m d.bbox.y2) m) 1

/-- The output loop of `weighted_boxes_fusion` (lines 93–109): one
`Detection` tagged `source="fused"` per fused box, denormalized back to
pixel space; `none` models the `IndexError` raised by the class-name
lookup for a negative out-of-range class id. -/
def buildFused (maxX maxY : ℚ) : List WEntry → Option (List Detection)
  | [] => some []
  | e :: rest =>
      match classNameFor e.label, buildFused maxX maxY rest with
      | some nm, some ds =>
          some ({ class_id := e.label
                  class_name := nm
                  confidence := e.score
                  bbox := ⟨e.box.x1 * maxX, e.box.y1 * maxY,
                           e.box.x2 * maxX, e.box.y2 * maxY⟩
                  source := "fused".data } :: ds)
      | _, _ => none

/-- `weighted_boxes_fusion` from `ai_service.py`.  `ensembleAvailable`
models whether the `ensemble_boxes` import succeeds; when it fails the
function returns the plain concatenation of the inputs.  The result is
`none` exactly when building an output `Detection` raises (an
`IndexError` from a negative out-of-range class id). -/
def weighted_boxes_fusion (ensembleAvailable : Bool)
    (detections_list : List (List Detection))
    (image_width image_height : Option ℚ)
    (iou_threshold skip_box_threshold : ℚ) : Option (List Detection) :=
  match ensembleAvailable with
  | false => some detections_list.flatten
  | true =>
      if detections_list.all (fun d => d.length = 0) then some []
      else
        let maxX : ℚ := match image_width, image_height with
          | some w, some _ => w
          | _, _ => fallbackMaxX detections_list
        let maxY : ℚ := match image_width, image_height with
          | some _, some h => h
          | _, _ => fallbackMaxY detections_list
        let sets : List (List WEntry) := detections_list.map (fun dets =>
          dets.map (fun d =>
            { box := ⟨d.bbox.x1 / maxX, d.bbox.y1 / maxY,
                      d.bbox.x2 / maxX, d.bbox.y2 / maxY⟩
              score := d.confidence
              label := d.class_id }))
        buildFused maxX maxY (wbf sets iou_threshold skip_box_threshold)

/-! ## JSON values (model of Python's `json` module data) -/

/-- JSON values as returned by `json.loads`.  Objects keep their fields
in parse order; lookups take the last binding of a key, matching the
overwrite semantics of Python dicts. -/
inductive Json where
  | null
  | bool (b : Bool)
  | num (q : ℚ)
  | str (s : PyStr)
  | arr (elems : List Json)
  | obj (fields : List (PyStr × Json))

/-- Python `dict` lookup on a parsed object: the last binding of a
duplicated key wins. -/
def dictGet (fields : List (PyStr × Json)) (key : PyStr) : Option Json :=
  (fields.reverse.find? (fun p => p.1 = key)).map (·.2)

/-- Python truthiness of a JSON value (`if not name: ...`). -/
def jsonFalsy : Json → Bool
  | .null => true
  | .bool b => !b
  | .num q => decide (q = 0)
  | .str s => s.isEmpty
  | .arr l => l.isEmpty
  | .obj f => f.isEmpty

/-- ASCII whitespace as stripped by `str.strip()` and skipped by the
JSON grammar. -/
def isPyWs (c : Char) : Bool :=
  c = ' ' ∨ c = '\t' ∨ c = '\n' ∨ c = '\r' ∨ c = '\x0b' ∨ c = '\x0c'

/-- `str.strip()`. -/
def pyStrip (s : PyStr) : PyStr :=
  ((s.dropWhile isPyWs).reverse.dropWhile isPyWs).reverse

/-- Substring test (`pat in s` for Python strings). -/
def hasSubstr (pat s : PyStr) : Bool :=
  s.tails.any (fun t => pat.isPrefixOf t)

/-- Split at the first occurrence of `pat`: returns the suffix that
follows the match. -/
def afterFirst (pat : PyStr) : PyStr → Option PyStr
  | [] => if pat.isEmpty then some [] else none
  | s@(_ :: rest) =>
      if pat.isPrefixOf s then some (s.drop pat.length)
      else afterFirst pat rest

/-- The prefix of `s` before the first occurrence of `pat` (`none` if
`pat` does not occur). -/
def beforeFirst (pat : PyStr) : PyStr → Option PyStr
  | [] => if pat.isEmpty then some [] else none
  | s@(c :: rest) =>
      if pat.isPrefixOf s then some []
      else (beforeFirst pat rest).map (c :: ·)

/-! ### A model of `json.loads` (recursive descent with fuel) -/

/-- Skip JSON whitespace. -/
def skipWs (s : PyStr) : PyStr := s.dropWhile isPyWs

/-- Hex digit value. -/
def hexVal (c : Char) : Option Nat :=
  if '0' ≤ c ∧ c ≤ '9' then some (c.toNat - '0'.toNat)
  else if 'a' ≤ c ∧ c ≤ 'f' then some (c.toNat - 'a'.toNat + 10)
  else if 'A' ≤ c ∧ c ≤ 'F' then some (c.toNat - 'A'.toNat + 10)
  else none

/-- Parse the body of a JSON string literal (after the opening quote),
returning the decoded characters and the rest of the input.  Handles
the standard escapes and `\uXXXX` (without surrogate pairing). -/
def parseJsonStr : PyStr → Option (PyStr × PyStr)
  | [] => none
  | '"' :: rest => some ([], rest)
  | '\\' :: 'u' :: a :: b :: c :: d :: rest =>
      match hexVal a, hexVal b, hexVal c, hexVal d with
      | some va, some vb, some vc, some vd =>
          (parseJsonStr rest).map (fun p =>
            (Char.ofNat (((va * 16 + vb) * 16 + vc) * 16 + vd) :: p.1, p.2))
      | _, _, _, _ => none
  | '\\' :: e :: rest =>
      let dec : Option Char :=
        if e = '"' then some '"'
        else if e = '\\' then some '\\'
        else if e = '/' then some '/'
        else if e = 'n' then some '\n'
        else if e = 't' then some '\t'
        else if e = 'r' then some '\r'
        else if e = 'b' then some (Char.ofNat 8)
        else if e = 'f' then some (Char.ofNat 12)
        else none
      match dec with
      | some ch => (parseJsonStr rest).map (fun p => (ch :: p.1, p.2))
      | none => none
  | c :: rest => (parseJsonStr rest).map (fun p => (c :: p.1, p.2))

/-- Fold a run of decimal digits left to right: value, digit count,
rest. -/
def takeDigits (acc : Nat) : PyStr → Nat × Nat × PyStr
  | [] => (acc, 0, [])
  | c :: rest =>
      if '0' ≤ c ∧ c ≤ '9' then
        let r := takeDigits (acc * 10 + (c.toNat - '0'.toNat)) rest
        (r.1, r.2.1 + 1, r.2.2)
      else (acc, 0, c :: rest)

/-- Parse a JSON number (integer or float) into `ℚ`. -/
def parseJsonNum (s : PyStr) : Option (ℚ × PyStr) :=
  let (neg, s1) := match s with
    | '-' :: rest => (true, rest)
    | _ => (false, s)
  let (ival, icount, s2) := takeDigits 0 s1
  if icount = 0 then none
  else
    let (fval, fcount, s3) := match s2 with
      | '.' :: rest => takeDigits 0 rest
      | _ => (0, 0, s2)
    if s2 ≠ s3 ∧ fcount = 0 then none
    else
      let base : ℚ := (ival : ℚ) + (fval : ℚ) / ((10 : ℚ) ^ fcount)
      let (eres, s4) : Option ℤ × PyStr := match s3 with
        | 'e' :: rest | 'E' :: rest =>
            let (esign, r1) : Bool × PyStr := match rest with
              | '+' :: r => (false, r)
              | '-' :: r => (true, r)
              | _ => (false, rest)
            let (ev, ec, r2) := takeDigits 0 r1
            if ec = 0 then (none, s3)
            else (some (if esign then -(ev : ℤ) else (ev : ℤ)), r2)
        | _ => (some 0, s3)
      match eres with
      | none => none
      | some e =>
          let v := base * (10 : ℚ) ^ e
          some (if neg then -v else v, s4)

mutual

/-- Parse one JSON value (fuel-bounded recursive descent). -/
def parseVal : Nat → PyStr → Option (Json × PyStr)
  | 0, _ => none
  | fuel + 1, s =>
      match skipWs s with
      | [] => none
      | c :: rest =>
          if c = 'n' then
            if "ull".data.isPrefixOf rest then some (.null, rest.drop 3) else none
          else if c = 't' then
            if "rue".data.isPrefixOf rest then some (.bool true, rest.drop 3)
            else none
          else if c = 'f' then
            if "alse".data.isPrefixOf rest then some (.bool false, rest.drop 4)
            else none
          else if c = '"' then
            (parseJsonStr rest).map (fun p => (.str p.1, p.2))
          else if c = '[' then
            match skipWs rest with
            | ']' :: r2 => some (.arr [], r2)
            | r2 => (parseArrItems fuel r2).map (fun p => (.arr p.1, p.2))
          else if c = '{' then
            match skipWs rest with
            | '}' :: r2 => some (.obj [], r2)
            | r2 => (parseObjItems fuel r2).map (fun p => (.obj p.1, p.2))
          else
            (parseJsonNum (c :: rest)).map (fun p => (.num p.1, p.2))

/-- Parse `value (, value)* ]` of an array. -/
def parseArrItems : Nat → PyStr → Option (List Json × PyStr)
  | 0, _ => none
  | fuel + 1, s =>
      match parseVal fuel s with
      | none => none
      | some (v, r) =>
          match skipWs r with
          | ',' :: r2 => (parseArrItems fuel r2).map (fun p => (v :: p.1, p.2))
          | ']' :: r2 => some ([v], r2)
          | _ => none

/-- Parse `"key": value (, "key": value)* }` of an object. -/
def parseObjItems : Nat → PyStr → Option (List (PyStr × Json) × PyStr)
  | 0, _ => none
  | fuel + 1, s =>
      match skipWs s with
      | '"' :: r =>
          match parseJsonStr r with
          | none => none
          | some (key, r2) =>
              match skipWs r2 with
              | ':' :: r3 =>
                  match parseVal fuel r3 with
                  | none => none
                  | some (v, r4) =>
                      match skipWs r4 with
                      | ',' :: r5 =>
                          (parseObjItems fuel r5).map
                            (fun p => ((key, v) :: p.1, p.2))
                      | '}' :: r5 => some ([(key, v)], r5)
                      | _ => none
              | _ => none
      | _ => none

end

/-- `json.loads`: parse the entire input (allowing trailing whitespace)
or fail with a `JSONDecodeError` (`none`). -/
def json_loads (s : PyStr) : Option Json :=
  match parseVal (s.length + 2) s with
  | some (v, rest) => if skipWs rest = [] then some v else none
  | none => none

/-! ## Tool definitions and parser (`services/tools.py`) -/

/-- `ToolName` enum. -/
inductive ToolName
  | ANALYZE_XRAY
  | EXPLAIN_FINDING
  | GENERATE_REPORT
deriving DecidableEq, Repr

/-- The string value of each `ToolName` member. -/
def ToolName.value : ToolName → PyStr
  | .ANALYZE_XRAY => "analyze_xray".data
  | .EXPLAIN_FINDING => "explain_finding".data
  | .GENERATE_REPORT => "generate_report".data

/-- `ToolName(name)`: `none` models the `ValueError` for a value outside
the enum. -/
def toolNameFromStr (s : PyStr) : Option ToolName :=
  if s = "analyze_xray".data then some .ANALYZE_XRAY
  else if s = "explain_finding".data then some .EXPLAIN_FINDING
  else if s = "generate_report".data then some .GENERATE_REPORT
  else none

/-- `ToolCall` pydantic model: a validated tool name and an `args`
dict. -/
structure ToolCall where
  name : ToolName
  args : List (PyStr × Json)

/-- Exceptions that can escape the parser internals: `AttributeError`
(calling `.get` on a non-dict) is caught nowhere; pydantic's
`ValidationError` (non-dict `args`) is caught by each parse strategy. -/
inductive PyExc
  | attributeError
  | validationError
deriving DecidableEq, Repr

/-- The part of `ToolCallParser._validate_and_create` after the
`tool_call` envelope has been unwrapped: require a truthy `name`,
reject names outside the tool vocabulary (the `ValueError` is caught
and becomes `None`), default `args` to `{}`, and build the `ToolCall`
(a non-dict `args` raises pydantic `ValidationError`; a non-dict
unwrapped value raises `AttributeError` at `data.get`). -/
def validateUnwrapped : Json → Except PyExc (Option ToolCall)
  | .obj f2 =>
      match dictGet f2 "name".data with
      | none => .ok none
      | some nv =>
          if jsonFalsy nv then .ok none
          else
            match nv with
            | .str s =>
                match toolNameFromStr s with
                | none => .ok none
                | some t =>
                    match (dictGet f2 "args".data).getD (.obj []) with
                    | .obj argf => .ok (some ⟨t, argf⟩)
                    | _ => .error .validationError
            | _ => .ok none
  | _ => .error .attributeError

/-- `ToolCallParser._validate_and_create`.  For a dict, unwrap a
`tool_call` envelope if the key is present, then validate.  For
non-dict JSON values the Python code still evaluates
`"tool_call" in data`: on a string this is a substring test and the
subsequent `data["tool_call"]` / `data.get` raises `TypeError` (caught)
or `AttributeError` (uncaught); on a list it is a membership test with
the same follow-up; on numbers/booleans/`None` the `in` itself raises
`TypeError`, which the inner `except (KeyError, TypeError)` turns into
`None`. -/
def validate_and_create : Json → Except PyExc (Option ToolCall)
  | .obj fields =>
      validateUnwrapped ((dictGet fields "tool_call".data).getD (.obj fields))
  | .str s =>
      if hasSubstr "tool_call".data s then .ok none
      else .error .attributeError
  | .arr elems =>
      if elems.any (fun e => match e with
          | .str s => s = "tool_call".data
          | _ => false) then .ok none
      else .error .attributeError
  | _ => .ok none

/-- `ToolCallParser._try_direct_json`: strip, `json.loads`, validate;
`JSONDecodeError` and `ValidationError` are caught and become `None`. -/
def tryDirectJson (text : PyStr) : Except PyExc (Option ToolCall) :=
  match json_loads (pyStrip text) with
  | none => .ok none
  | some data =>
      match validate_and_create data with
      | .ok r => .ok r
      | .error .validationError => .ok none
      | .error e => .error e

/-- Semantics of `re.search(r'```json\s*(.*?)\s*```', text, DOTALL)`:
the capture is the text between the first ` ```json ` fence and the
next ` ``` `, stripped of surrounding whitespace (the lazy capture
together with the greedy `\s*`s trims exactly the edges). -/
def findJsonFence (text : PyStr) : Option PyStr := do
  let after ← afterFirst "```json".data text
  let inner ← beforeFirst "```".data after
  pure (pyStrip inner)

/-- One start position of `re.search(r'```\s*(\{.*?\})\s*```', ...)`:
after a ` ``` ` fence, skip whitespace, require `{`, then take the
shortest body ending in `}` that is followed by whitespace and ` ``` `. -/
def fence2Body (afterFence : PyStr) : Option PyStr :=
  match skipWs afterFence with
  | '{' :: rest => go rest ['{']
  | _ => none
where
  go : PyStr → PyStr → Option PyStr
    | [], _ => none
    | c :: rest, acc =>
        if c = '}' ∧ "```".data.isPrefixOf (skipWs rest) then
          some (acc.reverse ++ ['}'])
        else
          go rest (c :: acc)

/-- All start positions of the generic-fence pattern, in order. -/
def tryFence2 : PyStr → Option PyStr
  | [] => none
  | s@(_ :: rest) =>
      (if "```".data.isPrefixOf s then fence2Body (s.drop 3) else none) <|>
        tryFence2 rest

/-- Try one extracted code-block candidate: parse failures and
`ValidationError` are caught (`none` continues with the next pattern),
a `None` validation result also falls through, an `AttributeError`
propagates. -/
def tryCandidate (cand : Option PyStr) : Except PyExc (Option ToolCall) :=
  match cand with
  | none => .ok none
  | some c =>
      match json_loads c with
      | none => .ok none
      | some data =>
          match validate_and_create data with
          | .ok r => .ok r
          | .error .validationError => .ok none
          | .error e => .error e

/-- `ToolCallParser._try_code_block`: the ` ```json ` pattern first,
then the generic ` ``` { ... } ``` ` pattern. -/
def tryCodeBlock (text : PyStr) : Except PyExc (Option ToolCall) :=
  match tryCandidate (findJsonFence text) with
  | .ok (some tc) => .ok (some tc)
  | .ok none => tryCandidate (tryFence2 text)
  | .error e => .error e

/-- `ToolCallParser._try_find_json`: character scan tracking brace
depth; each time the depth returns to zero the candidate substring is
parsed and validated, and scanning continues past failures. -/
def tryFindJson (text : PyStr) : Except PyExc (Option ToolCall) :=
  go text 0 none
where
  go : PyStr → ℤ → Option PyStr → Except PyExc (Option ToolCall)
    | [], _, _ => .ok none
    | c :: rest, depth, acc =>
        if c = '{' then
          let acc' := if depth = 0 then some ['{'] else acc.map (c :: ·)
          go rest (depth + 1) acc'
        else if c = '}' then
          let depth' := depth - 1
          match acc with
          | some a =>
              if depth' = 0 then
                match json_loads ((c :: a).reverse) with
                | some data =>
                    match validate_and_create data with
                    | .ok (some tc) => .ok (some tc)
                    | .ok none => go rest depth' none
                    | .error .validationError => go rest depth' none
                    | .error e => .error e
                | none => go rest depth' none
              else go rest depth' (some (c :: a))
          | none => go rest depth' none
        else
          go rest depth (acc.map (c :: ·))

/-- The `TOOL_TRIGGERS` table, in declaration order. -/
def TOOL_TRIGGERS : List (ToolName × List PyStr) :=
  [(.ANALYZE_XRAY,
      ["analyze_xray".data, "phân tích".data, "detect".data,
       "kiểm tra ảnh".data, "xem ảnh".data, "bất thường".data,
       "chẩn đoán".data, "phát hiện".data]),
   (.EXPLAIN_FINDING,
      ["explain_finding".data, "giải thích".data, "là gì".data,
       "nguyên nhân".data, "explain".data, "what is".data]),
   (.GENERATE_REPORT,
      ["generate_report".data, "báo cáo".data, "report".data,
       "tạo báo cáo".data, "xuất report".data, "viết kết luận".data])]

/-- The finding names known to `_extract_finding_name`. -/
def KNOWN_FINDINGS : List PyStr :=
  ["Cardiomegaly".data, "Pleural effusion".data, "Pneumothorax".data,
   "Atelectasis".data, "Consolidation".data, "Edema".data,
   "Emphysema".data, "Nodule".data, "Mass".data, "Infiltration".data,
   "Pneumonia".data, "Aortic enlargement".data, "Calcification".data,
   "Fibrosis".data]

/-- `str.lower()`, modelled by ASCII lowering (all trigger keywords and
finding names are compared in lowercase; non-ASCII uppercase input is
not lowered by this model). -/
def pyLower (s : PyStr) : PyStr := s.map Char.toLower

/-- `ToolCallParser._extract_finding_name`. -/
def extractFindingName (text : PyStr) : List (PyStr × Json) :=
  match KNOWN_FINDINGS.find? (fun f => hasSubstr (pyLower f) (pyLower text)) with
  | some f => [("finding_name".data, .str f)]
  | none => []

/-- `ToolCallParser._try_fuzzy_match`: first trigger keyword contained
in the lower-cased text wins, in table order; the original text is
handed to the finding-name extraction. -/
def tryFuzzyMatch (text : PyStr) : Option ToolCall :=
  go TOOL_TRIGGERS
where
  go : List (ToolName × List PyStr) → Option ToolCall
    | [] => none
    | (tool, trigs) :: rest =>
        if trigs.any (fun trig => hasSubstr trig (pyLower text)) then
          some ⟨tool, if tool = .EXPLAIN_FINDING then extractFindingName text
                      else []⟩
        else go rest

/-- `ToolCallParser.parse`: empty/whitespace input short-circuits, then
the four strategies in order; an uncaught `AttributeError` from
validation aborts the whole parse. -/
def ToolCallParser.parse (response : PyStr) : Except PyExc (Option ToolCall) :=
  if response.isEmpty ∨ (pyStrip response).isEmpty then .ok none
  else
    match tryDirectJson response with
    | .error e => .error e
    | .ok (some tc) => .ok (some tc)
    | .ok none =>
        match tryCodeBlock response with
        | .error e => .error e
        | .ok (some tc) => .ok (some tc)
        | .ok none =>
            match tryFindJson response with
            | .error e => .error e
            | .ok (some tc) => .ok (some tc)
            | .ok none => .ok (tryFuzzyMatch response)

/-! ## Streaming session (`core/streaming.py`) -/

/-- `StreamEventType` enum. -/
inductive StreamEventType
  | message_start
  | content_block_start
  | content_block_delta
  | content_block_stop
  | message_delta
  | message_stop
  | ping
  | error
deriving DecidableEq, Repr

/-- `StreamEvent` dataclass: an event type and a JSON-like payload. -/
structure StreamEvent where
  type : StreamEventType
  data : List (PyStr × Json)

/-- The event `StreamingSession.emit_error` builds. -/
def emitErrorEvent (error code : PyStr) : StreamEvent :=
  { type := .error
    data := [("error".data,
              Json.obj [("type".data, .str code), ("message".data, .str error)])] }

/-- `StreamingSession.emit_error`: appends the error event to the
session queue (`None` entries model the end-of-stream sentinel that
`stop` pushes). -/
def StreamingSession.emit_error (queue : List (Option StreamEvent))
    (error code : PyStr) : List (Option StreamEvent) :=
  queue ++ [some (emitErrorEvent error code)]

/-- What one `await asyncio.wait_for(self.queue.get(), timeout)` inside
`iterate` returns: an item from the queue (`item none` is the
end-of-stream sentinel) or a `TimeoutError` after `timeout` seconds
with no event arriving. -/
inductive GetOutcome
  | item (e : Option StreamEvent)
  | timedOut

/-- `StreamingSession.iterate`, driven by the schedule of its
queue-wait outcomes: yields each received event, breaks on the `None`
sentinel or on a `TimeoutError` (which is only logged), and in its
`finally` block leaves `is_active = False`.  Returns the yielded
events and the final `is_active` flag; an exhausted schedule models the
consumer closing the generator. -/
def StreamingSession.iterate : List GetOutcome → List StreamEvent × Bool
  | [] => ([], false)
  | .timedOut :: _ => ([], false)
  | .item none :: _ => ([], false)
  | .item (some e) :: rest =>
      let r := StreamingSession.iterate rest
      (e :: r.1, r.2)

/-! ## Orchestrator (`services/ai_service.py`, `AIService`) -/

/-- Display-only model of Python `str()` interpolation of a JSON value
into an f-string (only the `str` case is ever rendered faithfully;
no theorem inspects these display strings). -/
def pyStrOf : Json → PyStr
  | .str s => s
  | .bool true => "True".data
  | .bool false => "False".data
  | .null => "None".data
  | .num q => (toString q).data
  | .arr _ => "[...]".data
  | .obj _ => "\x7b...\x7d".data

/-- Event types yielded by `chat_with_tools_stream`. -/
inductive OEventType
  | thinking
  | tool_start
  | tool_result
  | text
  | done
deriving DecidableEq, Repr

/-- One `(event_type, content, detections)` tuple yielded by
`chat_with_tools_stream`. -/
structure OEvent where
  etype : OEventType
  content : PyStr
  detections : Option (List Detection)
deriving DecidableEq, Repr

/-- The external backend calls the orchestrator makes (`self.qwen.*`
and `self.yolo.detect`), recorded for reasoning about fault isolation. -/
inductive ExtCall
  | decisionStream
  | decisionCall
  | yoloDetect
  | summarizeStream
  | summarizeCall
  | explainStream
  | reportStream
deriving DecidableEq, Repr

/-- The black-box collaborators of `AIService`: the YOLO detector and
the Qwen generator methods are abstract synchronous functions (per the
spec they are external collaborators), and `parseToolCall` is the
semantics of `AIService._parse_tool_call` on the buffered response.
Exceptions raised by collaborators abort the Python generator without
further events; the model covers the normally-terminating executions. -/
structure Collaborators where
  parseToolCall : PyStr → Option ToolCall
  hasImage : Bool
  detect : List Detection × ℚ
  summarizeChunks : List Detection → List PyStr
  summarizeText : List Detection → PyStr
  explainChunks : Json → Json → List PyStr
  reportChunks : List Detection → Json → Json → List PyStr

/-- `buffer.strip().startswith('{') or buffer.strip().startswith('"')`:
`startswith` of a single character depends only on the first
non-whitespace character, and a right-trim can only empty an
all-whitespace string, on which both sides are false — so the check is
exactly the first non-whitespace character being `{` or `"`. -/
def jsonShaped (s : PyStr) : Bool :=
  match s.dropWhile isPyWs with
  | [] => false
  | c :: _ => c = '{' ∨ c = '"'

/-- The chunk-consumption loop of `chat_with_tools_stream` (lines
416–437): every chunk is appended to `buffer`; once the buffer reaches
10 characters the response is classified as JSON-shaped or text; a
text-shaped response streams the buffer then each further chunk as
`text` events, a JSON-shaped response buffers silently after a single
`thinking` event.  Returns the events emitted during the loop, the
final buffer and the classification. -/
def streamLoop : List PyStr → PyStr → Option Bool →
    List OEvent × PyStr × Option Bool
  | [], buffer, isJson => ([], buffer, isJson)
  | chunk :: rest, buffer, isJson =>
      let buffer' := buffer ++ chunk
      match isJson with
      | none =>
          if 10 ≤ buffer'.length then
            if jsonShaped buffer' then
              let r := streamLoop rest buffer' (some true)
              (⟨.thinking, "Đang xử lý yêu cầu...".data, none⟩ :: r.1, r.2)
            else
              let r := streamLoop rest [] (some false)
              (⟨.text, buffer', none⟩ :: r.1, r.2)
          else
            streamLoop rest buffer' none
      | some false =>
          let r := streamLoop rest buffer' (some false)
          (⟨.text, chunk, none⟩ :: r.1, r.2)
      | some true => streamLoop rest buffer' (some true)

/-- The tail of `chat_with_tools_stream` once the response is known to
be JSON-shaped (lines 453–511): hand the complete buffer to
`_parse_tool_call`; on failure emit the buffer as `text`; otherwise run
the tool branch.  Every branch ends with the single `done` event.
Returns the events and the backend calls made. -/
def handleJsonTail (o : Collaborators) (availDet : Option (List Detection))
    (buffer : PyStr) : List OEvent × List ExtCall :=
  match o.parseToolCall buffer with
  | none =>
      ([⟨.text, buffer, none⟩, ⟨.done, [], none⟩], [])
  | some tc =>
      match tc.name with
      | .ANALYZE_XRAY =>
          let detections := if o.hasImage then o.detect.1 else []
          (⟨.tool_start, "Đang phân tích ảnh X-quang...".data, none⟩ ::
            ⟨.tool_result,
              ("Phát hiện " ++ toString detections.length ++
                " vùng bất thường").data, some detections⟩ ::
            (o.summarizeChunks detections).map (fun c => ⟨.text, c, none⟩) ++
            [⟨.done, [], if detections.isEmpty then none else some detections⟩],
           (if o.hasImage then [ExtCall.yoloDetect] else []) ++
             [ExtCall.summarizeStream])
      | .EXPLAIN_FINDING =>
          let fn := (dictGet tc.args "finding_name".data).getD (.str [])
          let it := (dictGet tc.args "include_treatment".data).getD (.bool false)
          (⟨.tool_start,
              ("Đang tra cứu thông tin về ".data ++ pyStrOf fn ++ "...".data),
              none⟩ ::
            ⟨.tool_result, [], none⟩ ::
            (o.explainChunks fn it).map (fun c => ⟨.text, c, none⟩) ++
            [⟨.done, [], none⟩],
           [ExtCall.explainStream])
      | .GENERATE_REPORT =>
          let fmt := (dictGet tc.args "format".data).getD (.str "standard".data)
          let incRec :=
            (dictGet tc.args "include_recommendations".data).getD (.bool true)
          (⟨.tool_start, "Đang tạo báo cáo chẩn đoán...".data, none⟩ ::
            ⟨.tool_result, [], none⟩ ::
            (o.reportChunks (availDet.getD []) fmt incRec).map
              (fun c => ⟨.text, c, none⟩) ++
            [⟨.done, [], none⟩],
           [ExtCall.reportStream])

/-- `AIService.chat_with_tools_stream`: consume the decision stream
(the chunks the `chat_for_tool_decision_stream` generator yields),
classify, and either finish the text path or hand the buffer to the
tool-call parser.  Returns the yielded events and the external backend
calls made. -/
def chat_with_tools_stream (o : Collaborators)
    (availDet : Option (List Detection)) (chunks : List PyStr) :
    List OEvent × List ExtCall :=
  let r := streamLoop chunks [] none
  let isJsonFinal := match r.2.2 with
    | none => jsonShaped r.2.1
    | some b => b
  if isJsonFinal then
    let tail := handleJsonTail o availDet r.2.1
    (r.1 ++ tail.1, ExtCall.decisionStream :: tail.2)
  else
    let shortText : List OEvent := match r.2.2 with
      | none => [⟨.text, r.2.1, none⟩]
      | some _ => []
    (r.1 ++ shortText ++ [⟨.done, [], none⟩], [ExtCall.decisionStream])

/-- `AIService.chat_with_tools` (non-streaming): parse the decision
response and run the tool branch, returning
`(response_text, detections, tool_call)` (the token counts are
omitted) together with the backend calls made. -/
def chat_with_tools (o : Collaborators) (availDet : Option (List Detection))
    (decisionResponse : PyStr) :
    (PyStr × List Detection × Option ToolCall) × List ExtCall :=
  match o.parseToolCall decisionResponse with
  | none => ((decisionResponse, [], none), [ExtCall.decisionCall])
  | some tc =>
      match tc.name with
      | .ANALYZE_XRAY =>
          let detections := if o.hasImage then o.detect.1 else []
          ((o.summarizeText detections, detections, some tc),
           ExtCall.decisionCall ::
             (if o.hasImage then [ExtCall.yoloDetect] else []) ++
             [ExtCall.summarizeCall])
      | .EXPLAIN_FINDING =>
          let fn := (dictGet tc.args "finding_name".data).getD (.str [])
          let it := (dictGet tc.args "include_treatment".data).getD (.bool false)
          (((o.explainChunks fn it).flatten, [], some tc),
           [ExtCall.decisionCall, ExtCall.explainStream])
      | .GENERATE_REPORT =>
          let fmt := (dictGet tc.args "format".data).getD (.str "standard".data)
          let incRec :=
            (dictGet tc.args "include_recommendations".data).getD (.bool true)
          (((o.reportChunks (availDet.getD []) fmt incRec).flatten, [], some tc),
           [ExtCall.decisionCall, ExtCall.reportStream])

/-- In HALF_OPEN with `success_count + k = success_threshold` and `1 ≤ k`,
`k` further successful calls close the circuit and reset the failure
counter. -/
theorem CircuitBreaker.succN_closes (k : Nat) :
    ∀ (b : CircuitBreaker) (now : ℚ), b.state_ = .HALF_OPEN →
      b.success_count + k = b.config.success_threshold → 1 ≤ k →
      (b.succN now k).state_ = .CLOSED ∧ (b.succN now k).failure_count = 0 := by
  induction k with
  | zero => intro b now _ _ hk; omega
  | succ k ih =>
      intro b now hst hsum _
      obtain ⟨cfg, st, fc, sc, lf⟩ := b
      simp only at hst hsum
      subst hst
      by_cases hk : k = 0
      · subst hk
        have hge : sc + 1 ≥ cfg.success_threshold := by omega
        simp [CircuitBreaker.succN, CircuitBreaker.call, CircuitBreaker.stateRead,
              CircuitBreaker.onSuccess, hge]
      · have hlt : ¬ (sc + 1 ≥ cfg.success_threshold) := by omega
        have step : (CircuitBreaker.succN ⟨cfg, .HALF_OPEN, fc, sc, lf⟩ now (k + 1)) =
            CircuitBreaker.succN ⟨cfg, .HALF_OPEN, fc, sc + 1, lf⟩ now k := by
          simp [CircuitBreaker.succN, CircuitBreaker.call, CircuitBreaker.stateRead,
                CircuitBreaker.onSuccess, hlt]
        rw [step]
        exact ih ⟨cfg, .HALF_OPEN, fc, sc + 1, lf⟩ now rfl (by simpa using by omega)
          (by omega)

/-- C2: starting from CLOSED with `failure_threshold = 3`, three
consecutive calls whose wrapped function raises leave the breaker OPEN,
and a fourth call (within the recovery timeout) raises
`CircuitBreakerOpenError` without invoking the wrapped function
(outcome `rejectedOpen`, independent of the wrapped function's
behaviour `f`). -/
theorem circuit_opens_after_three_consecutive_failures
    (rt : ℚ) (st : Nat) (t1 t2 t3 t4 : ℚ) (f : Bool)
    (hrec : t4 - t3 < rt) :
    ((CircuitBreaker.mk0 ⟨3, rt, st⟩).failCalls [t1, t2, t3]).state_ = .OPEN ∧
    (((CircuitBreaker.mk0 ⟨3, rt, st⟩).failCalls [t1, t2, t3]).call t4 f).1 =
      .rejectedOpen := by
  have h : ¬ (t4 - t3 ≥ rt) := not_le.mpr hrec
  simp [CircuitBreaker.failCalls, CircuitBreaker.call, CircuitBreaker.stateRead,
        CircuitBreaker.onFailure, CircuitBreaker.mk0, h]

/-- Witness for C2 at a concrete configuration and clock. -/
theorem circuit_opens_after_three_consecutive_failures_witness :
    ((CircuitBreaker.mk0 ⟨3, 60, 2⟩).failCalls [0, 1, 2]).state_ = .OPEN ∧
    (((CircuitBreaker.mk0 ⟨3, 60, 2⟩).failCalls [0, 1, 2]).call 3 false).1 =
      .rejectedOpen :=
  circuit_opens_after_three_consecutive_failures 60 2 0 1 2 3 false (by norm_num)

/-- C3: (a) reading `state` on an OPEN breaker once `recovery_timeout`
has elapsed since the last recorded failure transitions it to HALF_OPEN
with the success counter reset to zero; (b) in HALF_OPEN with the
success counter at zero, `success_threshold` consecutive successful
calls transition it to CLOSED with the failure counter reset; (c) a
single failure in HALF_OPEN transitions it back to OPEN and updates the
last-failure timestamp. -/
theorem circuit_open_halfopen_recovery_cycle :
    (∀ (b : CircuitBreaker) (t now : ℚ), b.state_ = .OPEN →
      b.last_failure_time = some t → b.config.recovery_timeout ≤ now - t →
      b.stateRead now =
        (.HALF_OPEN, { b with state_ := .HALF_OPEN, success_count := 0 })) ∧
    (∀ (b : CircuitBreaker) (now : ℚ), b.state_ = .HALF_OPEN →
      b.success_count = 0 → 1 ≤ b.config.success_threshold →
      (b.succN now b.config.success_threshold).state_ = .CLOSED ∧
      (b.succN now b.config.success_threshold).failure_count = 0) ∧
    (∀ (b : CircuitBreaker) (now : ℚ), b.state_ = .HALF_OPEN →
      (b.call now true).2.state_ = .OPEN ∧
      (b.call now true).2.last_failure_time = some now) := by
  refine ⟨?_, ?_, ?_⟩
  · intro b t now hst hlf hel
    obtain ⟨cfg, s, fc, sc, lf⟩ := b
    simp only at hst hlf
    subst hst; subst hlf
    simp [CircuitBreaker.stateRead, ge_iff_le, hel]
  · intro b now hst hsc hth
    exact CircuitBreaker.succN_closes b.config.success_threshold b now hst
      (by omega) hth
  · intro b now hst
    obtain ⟨cfg, s, fc, sc, lf⟩ := b
    simp only at hst
    subst hst
    simp [CircuitBreaker.call, CircuitBreaker.stateRead, CircuitBreaker.onFailure]

/-- Witness for C3 at a concrete breaker, configuration and clock. -/
theorem circuit_open_halfopen_recovery_cycle_witness :
    (CircuitBreaker.stateRead ⟨⟨3, 60, 2⟩, .OPEN, 3, 1, some 0⟩ 60 =
      (.HALF_OPEN, ⟨⟨3, 60, 2⟩, .HALF_OPEN, 3, 0, some 0⟩)) ∧
    ((CircuitBreaker.succN ⟨⟨3, 60, 2⟩, .HALF_OPEN, 3, 0, some 0⟩ 61 2).state_ =
        .CLOSED ∧
      (CircuitBreaker.succN ⟨⟨3, 60, 2⟩, .HALF_OPEN, 3, 0, some 0⟩ 61 2).failure_count
        = 0) ∧
    ((CircuitBreaker.call ⟨⟨3, 60, 2⟩, .HALF_OPEN, 3, 0, some 0⟩ 61 true).2.state_ =
        .OPEN ∧
      (CircuitBreaker.call ⟨⟨3, 60, 2⟩, .HALF_OPEN, 3, 0, some 0⟩ 61
          true).2.last_failure_time = some 61) :=
  ⟨circuit_open_halfopen_recovery_cycle.1 ⟨⟨3, 60, 2⟩, .OPEN, 3, 1, some 0⟩ 0 60
      rfl rfl (by norm_num),
   circuit_open_halfopen_recovery_cycle.2.1 ⟨⟨3, 60, 2⟩, .HALF_OPEN, 3, 0, some 0⟩
      61 rfl rfl (by norm_num),
   circuit_open_halfopen_recovery_cycle.2.2 ⟨⟨3, 60, 2⟩, .HALF_OPEN, 3, 0, some 0⟩
      61 rfl⟩

/-- C8: when the `ensemble_boxes` import fails, `weighted_boxes_fusion`
returns exactly the order-preserving concatenation of all input
detection sets, every `Detection` unchanged — in particular no output
carries a `source="fused"` tag added by the fallback. -/
theorem fusion_backend_unavailable_concatenates
    (detections_list : List (List Detection)) (w h : Option ℚ) (it st : ℚ) :
    weighted_boxes_fusion false detections_list w h it st =
      some detections_list.flatten := rfl

/-- `init ≤ foldl max` for the inner per-set loop of the fallback
divisor computation. -/
theorem le_foldl_max (f : Detection → ℚ) :
    ∀ (l : List Detection) (init : ℚ),
      init ≤ l.foldl (fun m d => max m (f d)) init
  | [], _ => le_refl _
  | d :: l, init =>
      le_trans (le_max_left init (f d)) (le_foldl_max f l (max init (f d)))

/-- `init ≤ foldl` for the outer loop of the fallback divisor
computation. -/
theorem le_foldl2_max (f : Detection → ℚ) :
    ∀ (dl : List (List Detection)) (init : ℚ),
      init ≤ dl.foldl (fun m dets => dets.foldl (fun m d => max m (f d)) m) init
  | [], _ => le_refl _
  | dets :: dl, init =>
      le_trans (le_foldl_max f dets init) (le_foldl2_max f dl _)

/-- C10: the fallback normalization divisors that
`weighted_boxes_fusion` uses when `image_width` or `image_height` is
`None` start at 1 and are only ever raised, so they are at least 1 and
in particular never zero — the per-box normalization divisions cannot
divide by zero, even for boxes with all-zero coordinates. -/
theorem wbf_fallback_divisors_at_least_one
    (detections_list : List (List Detection)) :
    1 ≤ fallbackMaxX detections_list ∧ 1 ≤ fallbackMaxY detections_list ∧
    fallbackMaxX detections_list ≠ 0 ∧ fallbackMaxY detections_list ≠ 0 := by
  have hx : (1 : ℚ) ≤ fallbackMaxX detections_list :=
    le_foldl2_max (fun d => d.bbox.x2) detections_list 1
  have hy : (1 : ℚ) ≤ fallbackMaxY detections_list :=
    le_foldl2_max (fun d => d.bbox.y2) detections_list 1
  exact ⟨hx, hy, by linarith, by linarith⟩

/-- Counterexample to C4: with the fusion backend available, a
non-empty first set and an empty second set are *not* passed through:
the single box is run through WBF, its `source` is relabeled `"fused"`
(the input's was `"yolo"`), and its confidence is decayed from 9/10 to
9/20 because only one of the two detection sets contributed. -/
theorem fusion_single_set_not_passthrough :
    weighted_boxes_fusion true
      [[{ class_id := 0, class_name := "Aortic enlargement".data,
          confidence := 9/10, bbox := ⟨100, 100, 200, 200⟩,
          source := "yolo".data }], []]
      (some 1000) (some 1000) (1/2) 0 =
      some [{ class_id := 0, class_name := "Aortic enlargement".data,
              confidence := 9/20, bbox := ⟨100, 100, 200, 200⟩,
              source := "fused".data }] ∧
    ("fused".data : PyStr) ≠ "yolo".data ∧ (9/20 : ℚ) ≠ 9/10 := by
  refine ⟨?_, by decide, by norm_num⟩
  norm_num [weighted_boxes_fusion, wbf, addToClusters, fuseCluster, clusterBox,
            buildFused, classNameFor, pyListGet, VINDR_CLASSES, List.filter]

/-- Every detection built by the fused-output loop carries
`source = "fused"`. -/
theorem buildFused_source (maxX maxY : ℚ) :
    ∀ (l : List WEntry) (out : List Detection),
      buildFused maxX maxY l = some out → ∀ d ∈ out, d.source = "fused".data := by
  intro l
  induction l with
  | nil =>
      intro out h d hd
      simp [buildFused] at h
      subst h
      simp at hd
  | cons e rest ih =>
      intro out h d hd
      simp only [buildFused] at h
      rcases hnm : classNameFor e.label with _ | nm <;> rw [hnm] at h
      · exact absurd h (by simp)
      · rcases hrec : buildFused maxX maxY rest with _ | ds <;> rw [hrec] at h
        · exact absurd h (by simp)
        · simp only [Option.some.injEq] at h
          subst h
          rcases List.mem_cons.mp hd with hd | hd
          · subst hd; rfl
          · exact ih ds hrec d hd

/-- C4 (amended): the pass-through for a single non-empty set happens
only in the degraded no-backend mode, where the output is the
concatenation and hence equals the first set unchanged; when the
backend is available, the single set is still run through WBF and every
returned detection is relabeled `source="fused"`. -/
theorem fusion_single_set_passthrough_only_without_backend :
    (∀ (dets : List Detection) (w h : Option ℚ) (it st : ℚ),
      weighted_boxes_fusion false [dets, []] w h it st = some dets) ∧
    (∀ (dl : List (List Detection)) (w h : Option ℚ) (it st : ℚ)
        (out : List Detection),
      weighted_boxes_fusion true dl w h it st = some out →
      ∀ d ∈ out, d.source = "fused".data) := by
  constructor
  · intro dets w h it st
    simp [weighted_boxes_fusion]
  · intro dl w h it st out hout d hd
    simp only [weighted_boxes_fusion] at hout
    by_cases hall : dl.all (fun d => d.length = 0)
    · rw [if_pos hall] at hout
      simp only [Option.some.injEq] at hout
      subst hout
      simp at hd
    · rw [if_neg hall] at hout
      exact buildFused_source _ _ _ out hout d hd

/-- Witness for the amended C4 at a concrete detection. -/
theorem fusion_single_set_passthrough_only_without_backend_witness :
    (weighted_boxes_fusion false
      [[{ class_id := 0, class_name := "Aortic enlargement".data,
          confidence := 9/10, bbox := ⟨100, 100, 200, 200⟩,
          source := "yolo".data }], []] none none (1/2) 0 =
      some [{ class_id := 0, class_name := "Aortic enlargement".data,
              confidence := 9/10, bbox := ⟨100, 100, 200, 200⟩,
              source := "yolo".data }]) ∧
    ({ class_id := 0, class_name := "Aortic enlargement".data,
       confidence := 9/20, bbox := ⟨100, 100, 200, 200⟩,
       source := "fused".data } : Detection).source = "fused".data :=
  ⟨fusion_single_set_passthrough_only_without_backend.1 _ none none (1/2) 0,
   fusion_single_set_passthrough_only_without_backend.2
     [[{ class_id := 0, class_name := "Aortic enlargement".data,
         confidence := 9/10, bbox := ⟨100, 100, 200, 200⟩,
         source := "yolo".data }], []]
     (some 1000) (some 1000) (1/2) 0
     [{ class_id := 0, class_name := "Aortic enlargement".data,
        confidence := 9/20, bbox := ⟨100, 100, 200, 200⟩,
        source := "fused".data }]
     (by norm_num [weighted_boxes_fusion, wbf, addToClusters, fuseCluster,
        clusterBox, buildFused, classNameFor, pyListGet, VINDR_CLASSES,
        List.filter])
     _ (by simp)⟩

/-! ## Theorems about the streaming session -/

/-- Counterexample to C6: a consumer whose very first queue wait times
out gets the session torn down — zero events yielded (in particular no
`error` event) and `is_active = false`. -/
theorem streaming_timeout_yields_no_error_event :
    StreamingSession.iterate [GetOutcome.timedOut] = ([], false) := rfl

/-- C6 (amended): when the wait times out after any already-queued
events were drained, iteration ends with `is_active = false` and the
consumer receives exactly the drained events — no `error` event is
surfaced on the timeout path (the timeout is only logged); the
`emit_error` machinery exists but `iterate` never invokes it. -/
theorem streaming_timeout_teardown_without_error :
    (∀ (events : List StreamEvent) (rest : List GetOutcome),
      StreamingSession.iterate
        (events.map (fun e => GetOutcome.item (some e)) ++
          GetOutcome.timedOut :: rest) = (events, false)) ∧
    (∀ (q : List (Option StreamEvent)) (msg code : PyStr),
      StreamingSession.emit_error q msg code =
        q ++ [some (emitErrorEvent msg code)] ∧
      (emitErrorEvent msg code).type = .error) := by
  constructor
  · intro events rest
    induction events with
    | nil => rfl
    | cons e es ih =>
        simp only [List.map_cons, List.cons_append, StreamingSession.iterate,
                   List.append_eq, ih]
  · intro q msg code
    exact ⟨rfl, rfl⟩

/-! ## Theorems about the tool-call parser -/

/-- Counterexample to C7: on the input `{"name": "detect"}` — a JSON
object whose `name` is outside the tool vocabulary — `parse` does not
return none: after the JSON strategies reject the object, the fuzzy
keyword fallback fires on the trigger substring `detect` and returns
`ToolCall(analyze_xray, {})`. -/
theorem parse_invalid_name_not_none :
    ToolCallParser.parse "\x7b\"name\": \"detect\"\x7d".data =
      .ok (some ⟨ToolName.ANALYZE_XRAY, []⟩) ∧
    (Except.ok (some (⟨ToolName.ANALYZE_XRAY, []⟩ : ToolCall)) ≠
      (Except.ok none : Except PyExc (Option ToolCall))) := by
  exact ⟨rfl, by simp⟩

/-- C7 (amended): validation first unwraps a `tool_call` envelope when
the key is present; a JSON object whose `name` is a string outside the
fixed vocabulary is rejected by the validation step, which returns none
instead of raising; a missing `args` field defaults to the empty
mapping; and `parse` itself returns none for such an object only when
additionally no fuzzy-match trigger keyword occurs in the text (for
example `{"name": "foo_tool"}`). -/
theorem parser_validation_unwraps_rejects_defaults :
    (∀ (fields : List (PyStr × Json)) (inner : Json),
      dictGet fields "tool_call".data = some inner →
      validate_and_create (.obj fields) = validateUnwrapped inner) ∧
    (∀ (f2 : List (PyStr × Json)) (s : PyStr),
      dictGet f2 "name".data = some (.str s) → toolNameFromStr s = none →
      validateUnwrapped (.obj f2) = .ok none) ∧
    (∀ (f2 : List (PyStr × Json)) (s : PyStr) (t : ToolName),
      dictGet f2 "name".data = some (.str s) → toolNameFromStr s = some t →
      dictGet f2 "args".data = none →
      validateUnwrapped (.obj f2) = .ok (some ⟨t, []⟩)) ∧
    ToolCallParser.parse "\x7b\"name\": \"foo_tool\"\x7d".data = .ok none := by
  refine ⟨?_, ?_, ?_, rfl⟩
  · intro fields inner h
    simp [validate_and_create, h]
  · intro f2 s h1 h2
    simp only [validateUnwrapped, h1]
    by_cases hf : jsonFalsy (.str s)
    · simp [hf]
    · simp [hf, h2]
  · intro f2 s t h1 h2 h3
    have hne : jsonFalsy (.str s) = false := by
      unfold toolNameFromStr at h2
      split_ifs at h2 with ha hb hc <;>
        first
          | (subst ha; rfl)
          | (subst hb; rfl)
          | (subst hc; rfl)
    simp [validateUnwrapped, h1, hne, h2, h3]

/-- Witness for the amended C7 at concrete objects. -/
theorem parser_validation_unwraps_rejects_defaults_witness :
    (validate_and_create (.obj [("tool_call".data, Json.null)]) =
      validateUnwrapped Json.null) ∧
    (validateUnwrapped (.obj [("name".data, .str "foo".data)]) = .ok none) ∧
    (validateUnwrapped (.obj [("name".data, .str "analyze_xray".data)]) =
      .ok (some ⟨ToolName.ANALYZE_XRAY, []⟩)) :=
  ⟨parser_validation_unwraps_rejects_defaults.1 _ Json.null rfl,
   parser_validation_unwraps_rejects_defaults.2.1 _ "foo".data rfl rfl,
   parser_validation_unwraps_rejects_defaults.2.2.1 _ "analyze_xray".data
     ToolName.ANALYZE_XRAY rfl rfl rfl⟩

/-! ## Theorems about the streaming orchestrator -/

/-- A JSON-shaped string stays JSON-shaped under appending. -/
theorem jsonShaped_append (p q : PyStr) (h : jsonShaped p = true) :
    jsonShaped (p ++ q) = true := by
  unfold jsonShaped at h ⊢
  rw [List.dropWhile_append]
  rcases hp : p.dropWhile isPyWs with _ | ⟨c, t⟩
  · rw [hp] at h; simp at h
  · rw [hp] at h
    simpa using h

/-- If a prefix is JSON-shaped, so is the whole string. -/
theorem jsonShaped_of_take (n : Nat) (l : PyStr)
    (h : jsonShaped (l.take n) = true) : jsonShaped l = true := by
  have h2 := jsonShaped_append (l.take n) (l.drop n) h
  rwa [List.take_append_drop] at h2

/-- Once the response is classified JSON-shaped, the loop emits nothing
further and accumulates every chunk into the buffer. -/
theorem streamLoop_true (chunks : List PyStr) :
    ∀ buffer, streamLoop chunks buffer (some true) =
      ([], buffer ++ chunks.flatten, some true) := by
  induction chunks with
  | nil => intro buffer; simp [streamLoop]
  | cons c rest ih =>
      intro buffer
      simp [streamLoop, ih (buffer ++ c)]

/-- Loop invariant for a JSON-shaped response: only `thinking` events
are emitted, the final buffer is the full response, and the
classification is still pending or JSON. -/
theorem streamLoop_json (full : PyStr) (h : jsonShaped (full.take 10) = true) :
    ∀ (chunks : List PyStr) (buffer : PyStr), buffer ++ chunks.flatten = full →
      (∀ e ∈ (streamLoop chunks buffer none).1, e.etype = .thinking) ∧
      (streamLoop chunks buffer none).2.1 = full ∧
      ((streamLoop chunks buffer none).2.2 = none ∨
        (streamLoop chunks buffer none).2.2 = some true) := by
  intro chunks
  induction chunks with
  | nil =>
      intro buffer hb
      simp only [List.flatten_nil, List.append_nil] at hb
      subst hb
      exact ⟨by simp [streamLoop], by simp [streamLoop], Or.inl (by simp [streamLoop])⟩
  | cons c rest ih =>
      intro buffer hb
      have hb' : (buffer ++ c) ++ rest.flatten = full := by
        simpa [List.append_assoc] using hb
      by_cases h10 : 10 ≤ (buffer ++ c).length
      · have htake : ((buffer ++ c) ++ rest.flatten).take 10 =
            (buffer ++ c).take 10 := List.take_append_of_le_length h10
        have hj : jsonShaped (buffer ++ c) = true := by
          refine jsonShaped_of_take 10 _ ?_
          rw [← htake, hb']
          exact h
        have hstep : streamLoop (c :: rest) buffer none =
            ([⟨.thinking, "Đang xử lý yêu cầu...".data, none⟩],
              (buffer ++ c) ++ rest.flatten, some true) := by
          simp only [streamLoop]
          rw [if_pos h10, if_pos hj, streamLoop_true rest (buffer ++ c)]
        rw [hstep]
        refine ⟨?_, by simpa using hb', Or.inr rfl⟩
        intro e he
        simp only [List.mem_singleton] at he
        rw [he]
      · have hstep : streamLoop (c :: rest) buffer none =
            streamLoop rest (buffer ++ c) none := by
          simp only [streamLoop]
          rw [if_neg h10]
        rw [hstep]
        exact ih (buffer ++ c) hb'

/-- For a JSON-shaped response, the orchestrator's result decomposes
into the silent loop phase followed by the JSON tail applied to the
complete buffer. -/
theorem chat_with_tools_stream_json_eq (o : Collaborators)
    (availDet : Option (List Detection)) (chunks : List PyStr)
    (h : jsonShaped (chunks.flatten.take 10) = true) :
    chat_with_tools_stream o availDet chunks =
      ((streamLoop chunks [] none).1 ++
        (handleJsonTail o availDet chunks.flatten).1,
       ExtCall.decisionStream :: (handleJsonTail o availDet chunks.flatten).2) := by
  obtain ⟨_, hbuf, hcls⟩ :=
    streamLoop_json chunks.flatten h chunks [] (by simp)
  have hfs : jsonShaped chunks.flatten = true := jsonShaped_of_take 10 _ h
  simp only [chat_with_tools_stream]
  rcases hcls with hc | hc <;> rw [hc]
  · simp [hbuf, hfs]
  · simp [hbuf]

/-- C1: when the first ten accumulated characters of the decision
stream are JSON-shaped after stripping, the loop emits no `text` event
while chunks are still arriving, buffers the entire response, and the
orchestrator hands the complete buffer to the tool-call parser (the
first step of `handleJsonTail`) only after the stream ends. -/
theorem stream_json_shaped_fully_buffered (o : Collaborators)
    (availDet : Option (List Detection)) (chunks : List PyStr)
    (h : jsonShaped (chunks.flatten.take 10) = true) :
    (∀ e ∈ (streamLoop chunks [] none).1, e.etype ≠ .text) ∧
    (streamLoop chunks [] none).2.1 = chunks.flatten ∧
    chat_with_tools_stream o availDet chunks =
      ((streamLoop chunks [] none).1 ++
        (handleJsonTail o availDet chunks.flatten).1,
       ExtCall.decisionStream :: (handleJsonTail o availDet chunks.flatten).2) := by
  obtain ⟨hth, hbuf, _⟩ :=
    streamLoop_json chunks.flatten h chunks [] (by simp)
  exact ⟨fun e he => by rw [hth e he]; simp, hbuf,
    chat_with_tools_stream_json_eq o availDet chunks h⟩

/-- Witness for C1 at the spec's concrete chunk sequence. -/
theorem stream_json_shaped_fully_buffered_witness :
    jsonShaped ((List.flatten
      ["\x7b\"tool_call\"".data, "...\x7d".data]).take 10) = true ∧
    (streamLoop ["\x7b\"tool_call\"".data, "...\x7d".data] [] none).2.1 =
      List.flatten ["\x7b\"tool_call\"".data, "...\x7d".data] :=
  ⟨by decide,
   (stream_json_shaped_fully_buffered
      ⟨fun _ => none, false, ([], 0), fun _ => [], fun _ => [],
       fun _ _ => [], fun _ _ _ => []⟩
      none ["\x7b\"tool_call\"".data, "...\x7d".data] (by decide)).2.1⟩

/-- The loop phase only ever yields `thinking` or `text` events. -/
theorem streamLoop_thinking_or_text :
    ∀ (chunks : List PyStr) (buffer : PyStr) (isJson : Option Bool),
      ∀ e ∈ (streamLoop chunks buffer isJson).1,
        e.etype = .thinking ∨ e.etype = .text := by
  intro chunks
  induction chunks with
  | nil => intro buffer isJson e he; simp [streamLoop] at he
  | cons c rest ih =>
      intro buffer isJson e he
      rcases isJson with _ | b
      · by_cases h10 : 10 ≤ (buffer ++ c).length
        · by_cases hj : jsonShaped (buffer ++ c)
          · simp only [streamLoop, h10, if_true, hj] at he
            rcases List.mem_cons.mp he with rfl | he
            · exact Or.inl rfl
            · exact ih (buffer ++ c) (some true) e he
          · simp only [streamLoop, h10, if_true, Bool.not_eq_true] at he
            rw [if_neg (by simpa using hj)] at he
            rcases List.mem_cons.mp he with rfl | he
            · exact Or.inr rfl
            · exact ih [] (some false) e he
        · simp only [streamLoop, h10, if_false] at he
          exact ih (buffer ++ c) none e he
      · cases b
        · simp only [streamLoop] at he
          rcases List.mem_cons.mp he with rfl | he
          · exact Or.inr rfl
          · exact ih (buffer ++ c) (some false) e he
        · simp only [streamLoop] at he
          exact ih (buffer ++ c) (some true) e he

/-- Every branch of the JSON tail ends in exactly one `done` event. -/
theorem handleJsonTail_single_done (o : Collaborators)
    (availDet : Option (List Detection)) (buffer : PyStr) :
    ∃ front d, (handleJsonTail o availDet buffer).1 = front ++ [d] ∧
      d.etype = .done ∧ ∀ e ∈ front, e.etype ≠ .done := by
  unfold handleJsonTail
  rcases o.parseToolCall buffer with _ | ⟨nm, args⟩
  · exact ⟨[⟨.text, buffer, none⟩], ⟨.done, [], none⟩, rfl, rfl, by simp⟩
  · cases nm
    · refine ⟨_, _, rfl, rfl, ?_⟩
      intro e he
      rcases List.mem_cons.mp he with rfl | he
      · simp
      rcases List.mem_cons.mp he with rfl | he
      · simp
      rcases List.mem_map.mp he with ⟨x, _, rfl⟩
      simp
    · refine ⟨_, _, rfl, rfl, ?_⟩
      intro e he
      rcases List.mem_cons.mp he with rfl | he
      · simp
      rcases List.mem_cons.mp he with rfl | he
      · simp
      rcases List.mem_map.mp he with ⟨x, _, rfl⟩
      simp
    · refine ⟨_, _, rfl, rfl, ?_⟩
      intro e he
      rcases List.mem_cons.mp he with rfl | he
      · simp
      rcases List.mem_cons.mp he with rfl | he
      · simp
      rcases List.mem_map.mp he with ⟨x, _, rfl⟩
      simp

/-- C9: every terminating execution of `chat_with_tools_stream` yields
exactly one `done` event and it is the last event, on all paths
(direct text, short responses, failed parses, and all three tool
branches). -/
theorem chat_with_tools_stream_single_done (o : Collaborators)
    (availDet : Option (List Detection)) (chunks : List PyStr) :
    ∃ front d, (chat_with_tools_stream o availDet chunks).1 = front ++ [d] ∧
      d.etype = .done ∧ ∀ e ∈ front, e.etype ≠ .done := by
  simp only [chat_with_tools_stream]
  split
  · obtain ⟨f, d, hfd, hd, hf⟩ :=
      handleJsonTail_single_done o availDet (streamLoop chunks [] none).2.1
    refine ⟨(streamLoop chunks [] none).1 ++ f, d, ?_, hd, ?_⟩
    · simp [hfd]
    · intro e he
      rcases List.mem_append.mp he with he | he
      · rcases streamLoop_thinking_or_text chunks [] none e he with h | h <;>
          simp [h]
      · exact hf e he
  · refine ⟨(streamLoop chunks [] none).1 ++
      (match (streamLoop chunks [] none).2.2 with
        | none => [⟨.text, (streamLoop chunks [] none).2.1, none⟩]
        | some _ => []), ⟨.done, [], none⟩, by simp, rfl, ?_⟩
    intro e he
    rcases List.mem_append.mp he with he | he
    · rcases streamLoop_thinking_or_text chunks [] none e he with h | h <;>
        simp [h]
    · rcases hm : (streamLoop chunks [] none).2.2 with _ | b <;> rw [hm] at he
      · rcases List.mem_cons.mp he with rfl | he
        · simp
        · simp at he
      · simp at he

/-- Counterexample to C5: the module-level `yolo_circuit` is OPEN
(after three recorded failures), yet a `chat_with_tools_stream` run and
a `chat_with_tools` run whose tool decision is `analyze_xray` still
invoke `yolo.detect` — the orchestrator never consults the breaker
(neither definition takes any breaker state), so no
`CircuitBreakerOpenError` fast-fail occurs. -/
theorem orchestrator_ignores_open_circuit_breaker :
    (yolo_circuit.failCalls [0, 0, 0]).state_ = .OPEN ∧
    ExtCall.yoloDetect ∈
      (chat_with_tools_stream
        ⟨fun _ => some ⟨.ANALYZE_XRAY, []⟩, true, ([], 0), fun _ => [],
         fun _ => [], fun _ _ => [], fun _ _ _ => []⟩
        none ["\x7b\"tool_call\"".data, "...\x7d".data]).2 ∧
    ExtCall.yoloDetect ∈
      (chat_with_tools
        ⟨fun _ => some ⟨.ANALYZE_XRAY, []⟩, true, ([], 0), fun _ => [],
         fun _ => [], fun _ _ => [], fun _ _ _ => []⟩
        none "\x7b\"tool_call\"\x7d".data).2 :=
  ⟨by decide, by decide, by decide⟩

/-- C5 (amended): `yolo_circuit` and `qwen_circuit` exist with the
documented thresholds, but neither `chat_with_tools` nor
`chat_with_tools_stream` routes any backend call through a circuit
breaker or retry policy: whenever the parsed tool call is
`analyze_xray` and an image is present, `yolo.detect` is invoked
unconditionally (the orchestrator takes no breaker state at all), so an
OPEN breaker cannot make the call fail fast. -/
theorem orchestrator_calls_backends_directly :
    (∀ (o : Collaborators) (availDet : Option (List Detection))
        (chunks : List PyStr) (args : List (PyStr × Json)),
      jsonShaped (chunks.flatten.take 10) = true →
      o.parseToolCall chunks.flatten = some ⟨.ANALYZE_XRAY, args⟩ →
      o.hasImage = true →
      ExtCall.yoloDetect ∈ (chat_with_tools_stream o availDet chunks).2) ∧
    (∀ (o : Collaborators) (availDet : Option (List Detection))
        (resp : PyStr) (args : List (PyStr × Json)),
      o.parseToolCall resp = some ⟨.ANALYZE_XRAY, args⟩ →
      o.hasImage = true →
      ExtCall.yoloDetect ∈ (chat_with_tools o availDet resp).2) := by
  constructor
  · intro o availDet chunks args hshape hparse himg
    rw [chat_with_tools_stream_json_eq o availDet chunks hshape]
    simp only [handleJsonTail, hparse, himg]
    simp
  · intro o availDet resp args hparse himg
    simp only [chat_with_tools, hparse, himg]
    simp

/-- Witness for the amended C5 at concrete collaborators. -/
theorem orchestrator_calls_backends_directly_witness :
    ExtCall.yoloDetect ∈
      (chat_with_tools_stream
        ⟨fun _ => some ⟨.ANALYZE_XRAY, []⟩, true, ([], 1), fun _ => [],
         fun _ => [], fun _ _ => [], fun _ _ _ => []⟩
        none ["\x7b\"tool_call\"".data, " \x7d".data]).2 ∧
    ExtCall.yoloDetect ∈
      (chat_with_tools
        ⟨fun _ => some ⟨.ANALYZE_XRAY, []⟩, true, ([], 1), fun _ => [],
         fun _ => [], fun _ _ => [], fun _ _ _ => []⟩
        none "\x7b\x7d".data).2 :=
  ⟨orchestrator_calls_backends_directly.1 _ none
      ["\x7b\"tool_call\"".data, " \x7d".data] [] (by decide) rfl rfl,
   orchestrator_calls_backends_directly.2 _ none "\x7b\x7d".data [] rfl rfl⟩

end MedXray
